import Mathlib

/-!
Shallow embedding of the `read-process-memory` crate (src/lib.rs).

Each platform backend of `CopyAddress::copy_address` is embedded as a pure
function over an "OS outcome" record that fixes the results the operating
system would return for each syscall the code issues.  The embedding returns
the list of OS operations the code performs, in order, together with the
`io::Result` the Rust function returns, so that claims about control flow
(fallbacks, attach/detach protocol, short-circuits) and about error
precedence become provable statements.

`io::Error` values are observable here only through their raw OS error code,
modelled as `Option Int` (the result of `raw_os_error()`); the macOS backend
additionally constructs a descriptive "mismatched read sizes" error, which
gets its own constructor.
-/

namespace ReadProcessMemory

/-- Equality of embedded `io::Result` values is decidable. -/
instance exceptDecEq {ε α : Type} [DecidableEq ε] [DecidableEq α] :
    DecidableEq (Except ε α) := fun a b =>
  match a, b with
  | .error e, .error e' =>
    if h : e = e' then .isTrue (by rw [h]) else .isFalse (by simp [h])
  | .error _, .ok _ => .isFalse (by simp)
  | .ok _, .error _ => .isFalse (by simp)
  | .ok v, .ok v' =>
    if h : v = v' then .isTrue (by rw [h]) else .isFalse (by simp [h])

/-! ### macOS backend (`#[cfg(target_os = "macos")]`, src/lib.rs lines 129-253) -/

/-- `KERN_SUCCESS` from the mach crate. -/
def KERN_SUCCESS : Int := 0

/-- The error values the macOS `copy_address` can produce: the descriptive
mismatched-read-sizes error built with `io::Error::new`, or the raw OS error
from `io::Error::last_os_error()`. -/
inductive MacError where
  | mismatchedReadSizes (expected got : Nat)
  | osError (code : Option Int)
deriving DecidableEq, Repr

/-- Outcome of the single `vm_read_overwrite` call: the kernel return code,
the value the kernel wrote through the `out_size` pointer (`none` when the
kernel left the pointee untouched), and the errno visible to
`io::Error::last_os_error()` afterwards. -/
structure MacVmReadOutcome where
  kr : Int
  outSize : Option Nat
  errno : Option Int
deriving DecidableEq, Repr

/-- Final value of the `read_len` local after the `vm_read_overwrite` call:
it is initialized to `buf.len() as vm_size_t` and passed by pointer, so it
holds `bufLen` unless the kernel overwrote it. -/
def macosReadLen (bufLen : Nat) (o : MacVmReadOutcome) : Nat :=
  o.outSize.getD bufLen

/-- Embedding of `copy_address` for macOS (src/lib.rs lines 224-252):
call `vm_read_overwrite` with `read_len` pre-set to `buf.len()`, then return
the mismatched-read-sizes error if `read_len != buf.len()`, then the raw OS
error if the kernel code is not `KERN_SUCCESS`, else `Ok(())`. -/
def macosCopyAddress (bufLen : Nat) (o : MacVmReadOutcome) : Except MacError Unit :=
  let readLen := macosReadLen bufLen o
  if readLen ≠ bufLen then
    .error (.mismatchedReadSizes bufLen readLen)
  else if o.kr ≠ KERN_SUCCESS then
    .error (.osError o.errno)
  else
    .ok ()

/-! ### Linux backend (`#[cfg(target_os = "linux")]`, src/lib.rs lines 64-127) -/

/-- `libc::ENOSYS` on Linux. -/
def ENOSYS : Int := 38

/-- `libc::EPERM` on Linux. -/
def EPERM : Int := 1

/-- The OS operations the Linux `copy_address` can issue, with the arguments
the code passes. `processVmReadv` records the single local iovec length,
`liovcnt`, the single remote iovec length, and `riovcnt`; the fallback path
records the pid whose `/proc/<pid>/mem` is opened, the absolute seek target,
and the exact length handed to `read_exact`. -/
inductive LinuxOp where
  | processVmReadv (localLen liovcnt remoteLen riovcnt : Nat)
  | openProcMem (pid : Int)
  | seekStart (addr : Nat)
  | readExact (len : Nat)
deriving DecidableEq, Repr

/-- Outcome the OS supplies for each call the Linux backend can make:
the return value of `process_vm_readv`, the errno visible to
`last_os_error()` after it, and the results of `File::open`, `seek`, and
`read_exact` on the fallback path. -/
structure LinuxOsOutcome where
  vmResult : Int
  vmErrno : Option Int
  openOutcome : Except (Option Int) Unit
  seekOutcome : Except (Option Int) Unit
  readExactOutcome : Except (Option Int) Unit
deriving DecidableEq, Repr

/-- Embedding of the fallback body (src/lib.rs lines 114-118): open
`/proc/<pid>/mem` (`?` propagates the error), seek to `addr` (`?`), then
`read_exact(buf)`. -/
def linuxFallback (pid : Int) (addr bufLen : Nat) (os : LinuxOsOutcome) :
    List LinuxOp × Except (Option Int) Unit :=
  match os.openOutcome with
  | .error e => ([.openProcMem pid], .error e)
  | .ok _ =>
    match os.seekOutcome with
    | .error e => ([.openProcMem pid, .seekStart addr], .error e)
    | .ok _ =>
      ([.openProcMem pid, .seekStart addr, .readExact bufLen], os.readExactOutcome)

/-- Embedding of `copy_address` for Linux (src/lib.rs lines 100-126): one
`process_vm_readv` with one local and one remote iovec, both of length
`buf.len()`; on return value `-1`, match `last_os_error().raw_os_error()`:
`Some(ENOSYS) | Some(EPERM)` takes the `/proc/<pid>/mem` fallback, anything
else returns `last_os_error()`; otherwise `Ok(())`. -/
def linuxCopyAddress (pid : Int) (addr bufLen : Nat) (os : LinuxOsOutcome) :
    List LinuxOp × Except (Option Int) Unit :=
  let call := LinuxOp.processVmReadv bufLen 1 bufLen 1
  if os.vmResult = -1 then
    if os.vmErrno = some ENOSYS ∨ os.vmErrno = some EPERM then
      let fb := linuxFallback pid addr bufLen os
      (call :: fb.1, fb.2)
    else
      ([call], .error os.vmErrno)
  else
    ([call], .ok ())

/-! ### Handle construction on Linux and FreeBSD
(src/lib.rs lines 83-89 and 297-303) -/

/-- On Linux a `ProcessHandle` is just the pid, stored verbatim. -/
structure LinuxProcessHandle where
  pid : Int
deriving DecidableEq, Repr

/-- Embedding of `TryFrom<Pid> for ProcessHandle` on Linux (src/lib.rs lines
83-89): the body is literally `Ok(Self(pid))` - no OS call is made, so the
embedding is a total pure function with no OS-outcome argument. -/
def linuxTryFromPid (pid : Int) : Except (Option Int) LinuxProcessHandle :=
  .ok ⟨pid⟩

/-- On FreeBSD a `ProcessHandle` is just the pid, stored verbatim. -/
structure FreebsdProcessHandle where
  pid : Int
deriving DecidableEq, Repr

/-- Embedding of `TryFrom<Pid> for ProcessHandle` on FreeBSD (src/lib.rs
lines 297-303): the body is literally `Ok(Self(pid))` - no OS call is made,
so the embedding is a total pure function with no OS-outcome argument. -/
def freebsdTryFromPid (pid : Int) : Except (Option Int) FreebsdProcessHandle :=
  .ok ⟨pid⟩

/-! ### FreeBSD backend (`#[cfg(target_os = "freebsd")]`, src/lib.rs lines 255-383) -/

/-- `libc::EBUSY` on FreeBSD. -/
def EBUSY : Int := 16

/-- `PtraceLockState` (src/lib.rs lines 284-288): `Release` means we
attached and may safely detach; `NoRelease` means the process was already
attached by another tracer, so we must not detach. -/
inductive PtraceLockState where
  | Release
  | NoRelease
deriving DecidableEq, Repr

/-- The OS operations the FreeBSD `copy_address` can issue, in order of
appearance: `ptrace(PT_ATTACH, ..)`, `waitpid`, `ptrace(PT_IO, ..)` with the
read descriptor's offset and length, and `ptrace(PT_DETACH, ..)`. -/
inductive FreebsdOp where
  | ptAttach
  | waitpid
  | ptIoRead (addr len : Nat)
  | ptDetach
deriving DecidableEq, Repr

/-- Outcome the OS supplies for each call the FreeBSD backend can make: the
return value of `ptrace(PT_ATTACH, ..)` and the errno visible to
`last_os_error().raw_os_error()` right after it; whether `WIFSTOPPED` holds
for the status `waitpid` fills in, and the errno visible after that wait;
the return value of `ptrace(PT_IO, ..)` and its errno; and the return value
of `ptrace(PT_DETACH, ..)` and its errno. -/
structure FreebsdOsOutcome where
  attachStatus : Int
  attachErrno : Option Int
  waitStopped : Bool
  waitErrno : Option Int
  ioStatus : Int
  ioErrno : Option Int
  detachStatus : Int
  detachErrno : Option Int
deriving DecidableEq, Repr

/-- Embedding of `ptrace_attach` (src/lib.rs lines 315-341): issue
`ptrace(PT_ATTACH, ..)` and capture `last_os_error()`; only when
`raw_os_error()` is `Some` and the attach status is `-1` does the early
return trigger: `EBUSY` yields `Ok(NoRelease)`, anything else yields the
captured error.  Otherwise `waitpid` runs and `WIFSTOPPED` decides between
`Ok(Release)` and the OS error observed after the wait. -/
def ptraceAttach (os : FreebsdOsOutcome) :
    List FreebsdOp × Except (Option Int) PtraceLockState :=
  if os.attachErrno.isSome ∧ os.attachStatus = -1 then
    if os.attachErrno = some EBUSY then
      ([.ptAttach], .ok .NoRelease)
    else
      ([.ptAttach], .error os.attachErrno)
  else if os.waitStopped then
    ([.ptAttach, .waitpid], .ok .Release)
  else
    ([.ptAttach, .waitpid], .error os.waitErrno)

/-- Embedding of `ptrace_io` (src/lib.rs lines 344-359): one
`ptrace(PT_IO, ..)` with a `PIOD_READ_D` descriptor whose offset is `addr`
and whose length is `buf.len()`; return value `-1` yields the OS error. -/
def ptraceIoRead (addr bufLen : Nat) (os : FreebsdOsOutcome) :
    List FreebsdOp × Except (Option Int) Unit :=
  if os.ioStatus = -1 then
    ([.ptIoRead addr bufLen], .error os.ioErrno)
  else
    ([.ptIoRead addr bufLen], .ok ())

/-- Embedding of `ptrace_detach` (src/lib.rs lines 362-370): one
`ptrace(PT_DETACH, ..)`; return value `-1` yields the OS error. -/
def ptraceDetach (os : FreebsdOsOutcome) :
    List FreebsdOp × Except (Option Int) Unit :=
  if os.detachStatus = -1 then
    ([.ptDetach], .error os.detachErrno)
  else
    ([.ptDetach], .ok ())

/-- Embedding of `copy_address` for FreeBSD (src/lib.rs lines 372-382):
`let should_detach = ptrace_attach(..)? == Release;` then
`let result = ptrace_io(..);` then `if should_detach { ptrace_detach(..)? }`
and finally `result`.  A detach error thus supersedes `result`. -/
def freebsdCopyAddress (addr bufLen : Nat) (os : FreebsdOsOutcome) :
    List FreebsdOp × Except (Option Int) Unit :=
  match ptraceAttach os with
  | (aops, .error e) => (aops, .error e)
  | (aops, .ok state) =>
    let io := ptraceIoRead addr bufLen os
    if state = PtraceLockState.Release then
      match ptraceDetach os with
      | (dops, .error e) => (aops ++ io.1 ++ dops, .error e)
      | (dops, .ok _) => (aops ++ io.1 ++ dops, io.2)
    else
      (aops ++ io.1, io.2)

/-! ### Windows backend (`#[cfg(windows)]`, src/lib.rs lines 385-476) -/

/-- The OS operation the Windows `copy_address` can issue: a single
`ReadProcessMemory` with the remote address and the exact byte count
`mem::size_of_val(buf)`. -/
inductive WindowsOp where
  | readProcessMemory (addr len : Nat)
deriving DecidableEq, Repr

/-- Outcome the OS supplies for the `ReadProcessMemory` call: its `BOOL`
return value and the errno visible to `last_os_error()` after it. -/
structure WindowsOsOutcome where
  readResult : Int
  errno : Option Int
deriving DecidableEq, Repr

/-- Embedding of `copy_address` for Windows (src/lib.rs lines 455-474):
`buf.len() == 0` short-circuits to `Ok(())` before any call; otherwise one
`ReadProcessMemory` whose zero return value yields the OS error. -/
def windowsCopyAddress (addr bufLen : Nat) (os : WindowsOsOutcome) :
    List WindowsOp × Except (Option Int) Unit :=
  if bufLen = 0 then
    ([], .ok ())
  else if os.readResult = 0 then
    ([.readProcessMemory addr bufLen], .error os.errno)
  else
    ([.readProcessMemory addr bufLen], .ok ())

/-! ### Windows handle lifecycle (src/lib.rs lines 404-451)

`ProcessHandle` is `Arc<ProcessHandleInner>`; `ProcessHandleInner`'s `Drop`
impl calls `CloseHandle` once.  The lifecycle is embedded as a state machine
over the `Arc` strong count together with the number of `CloseHandle` calls
made so far: `Clone` increments the strong count, dropping a handle
decrements it, and dropping the last reference runs `ProcessHandleInner::drop`,
which performs the one `CloseHandle`.  A clone or drop is only well-formed
while at least one reference is alive. -/

/-- State of one `ProcessHandleInner` allocation: the `Arc` strong count and
how many times `CloseHandle` has been called on the wrapped `RawHandle`. -/
structure WindowsHandleState where
  strongCount : Nat
  closeHandleCalls : Nat
deriving DecidableEq, Repr

/-- The two lifecycle events a `ProcessHandle` value admits. -/
inductive HandleOp where
  | cloneHandle
  | dropHandle
deriving DecidableEq, Repr

/-- One lifecycle step: `Clone` bumps the strong count; dropping the last
reference drops the `ProcessHandleInner`, whose `Drop` impl (src/lib.rs
lines 418-422) calls `CloseHandle` exactly then. -/
def handleStep (s : WindowsHandleState) : HandleOp → WindowsHandleState
  | .cloneHandle => { s with strongCount := s.strongCount + 1 }
  | .dropHandle =>
    if s.strongCount = 1 then
      ⟨0, s.closeHandleCalls + 1⟩
    else
      { s with strongCount := s.strongCount - 1 }

/-- Run a sequence of lifecycle events. -/
def handleRun (s : WindowsHandleState) (ops : List HandleOp) : WindowsHandleState :=
  ops.foldl handleStep s

/-- A sequence of lifecycle events is well-formed from `s` when every event
acts on a live reference (clones and drops of moved-out values do not
exist in Rust once the strong count is zero). -/
def handleOpsValid (s : WindowsHandleState) : List HandleOp → Bool
  | [] => true
  | op :: rest => decide (0 < s.strongCount) && handleOpsValid (handleStep s op) rest

/-- Every constructor wraps the raw handle in `Arc::new(ProcessHandleInner(..))`:
one live reference, no `CloseHandle` call yet. -/
def initialHandleState : WindowsHandleState := ⟨1, 0⟩

/-- Embedding of `TryFrom<Pid> for ProcessHandle` on Windows (src/lib.rs
lines 425-436): `OpenProcess` returning a null handle yields the OS error,
otherwise the raw handle is wrapped in a fresh `Arc`. -/
def windowsTryFromPid (handleValue : Int) (errno : Option Int) :
    Except (Option Int) WindowsHandleState :=
  if handleValue = 0 then
    .error errno
  else
    .ok initialHandleState

/-- Embedding of `TryFrom<&Child> for ProcessHandle` on Windows (src/lib.rs
lines 439-445): always wraps the child's raw handle in a fresh `Arc`. -/
def windowsTryFromChild : WindowsHandleState := initialHandleState

/-- Embedding of `From<RawHandle> for ProcessHandle` on Windows (src/lib.rs
lines 447-451): always wraps the raw handle in a fresh `Arc`. -/
def windowsFromRawHandle : WindowsHandleState := initialHandleState

/-- The invariant tying `CloseHandle` calls to the strong count: the
underlying kernel object is closed once the last reference is gone, and
never while a reference is alive. -/
def handleClosedOnceAtEnd (s : WindowsHandleState) : Prop :=
  (s.strongCount = 0 → s.closeHandleCalls = 1) ∧
  (0 < s.strongCount → s.closeHandleCalls = 0)

/-- OS outcome used by the C4 counterexample: `ptrace(PT_ATTACH, ..)` fails
with errno 3 (`ESRCH`, no such process). -/
def c4AttachFails : FreebsdOsOutcome :=
  ⟨-1, some 3, false, none, 0, none, 0, none⟩

end ReadProcessMemory

namespace ReadProcessMemory

/-- C1: On macOS, `copy_address` checks the actual byte count independently
of the kernel return code: whenever the final value of `read_len` differs
from the requested `buf.len()`, the descriptive mismatched-read-sizes error
is returned - for every kernel return code, including `KERN_SUCCESS`. -/
theorem c1_macos_short_read_is_error (bufLen : Nat) (o : MacVmReadOutcome)
    (h : macosReadLen bufLen o ≠ bufLen) :
    macosCopyAddress bufLen o =
      .error (.mismatchedReadSizes bufLen (macosReadLen bufLen o)) := by
  unfold macosCopyAddress
  simp [h]

/-- Witness for C1 at a concrete input: kernel code `KERN_SUCCESS = 0` but
only 2 of the requested 4 bytes returned still yields the mismatched error. -/
theorem c1_witness :
    macosReadLen 4 ⟨0, some 2, none⟩ ≠ 4 ∧
    macosCopyAddress 4 ⟨0, some 2, none⟩ =
      .error (.mismatchedReadSizes 4 (macosReadLen 4 ⟨0, some 2, none⟩)) :=
  ⟨by decide, c1_macos_short_read_is_error 4 ⟨0, some 2, none⟩ (by decide)⟩

/-- C9: On macOS the byte-count check precedes the kernel-status check: when
the kernel code is not `KERN_SUCCESS` and the byte count also mismatches,
the mismatched-read-sizes error is the one returned; and because `read_len`
is pre-initialized to `buf.len()`, a failing kernel call that leaves the
out-size untouched yields the raw OS error instead. -/
theorem c9_macos_error_precedence (bufLen : Nat) (o : MacVmReadOutcome) :
    (o.kr ≠ KERN_SUCCESS → macosReadLen bufLen o ≠ bufLen →
      macosCopyAddress bufLen o =
        .error (.mismatchedReadSizes bufLen (macosReadLen bufLen o))) ∧
    (o.kr ≠ KERN_SUCCESS → o.outSize = none →
      macosCopyAddress bufLen o = .error (.osError o.errno)) := by
  constructor
  · intro _ hlen
    unfold macosCopyAddress
    simp [hlen]
  · intro hkr hout
    unfold macosCopyAddress macosReadLen
    simp [hout, hkr]

/-- Witness for C9 at concrete inputs: with kernel code 1 and out-size 2 of
4 requested, the mismatched error wins; with kernel code 1 and out-size left
untouched, the raw OS error (errno 14) is returned. -/
theorem c9_witness :
    macosCopyAddress 4 ⟨1, some 2, some 14⟩ =
      .error (.mismatchedReadSizes 4 (macosReadLen 4 ⟨1, some 2, some 14⟩)) ∧
    macosCopyAddress 4 ⟨1, none, some 14⟩ = .error (.osError (some 14)) :=
  ⟨(c9_macos_error_precedence 4 ⟨1, some 2, some 14⟩).1 (by decide) (by decide),
   (c9_macos_error_precedence 4 ⟨1, none, some 14⟩).2 (by decide) (by decide)⟩

/-- C8: On Linux and FreeBSD, converting a pid to a `ProcessHandle` always
succeeds and stores the identifier verbatim; the embedded conversions are
pure total functions with no OS-outcome argument, reflecting that the source
bodies are `Ok(Self(pid))` with no OS call. -/
theorem c8_unix_handle_from_pid_total (pid : Int) :
    linuxTryFromPid pid = .ok ⟨pid⟩ ∧ freebsdTryFromPid pid = .ok ⟨pid⟩ :=
  ⟨rfl, rfl⟩

/-- Helper: when `ptrace_attach` returns `Ok(Release)`, its trace was the
attach followed by the wait. -/
theorem ptraceAttach_snd_release (os : FreebsdOsOutcome)
    (h : (ptraceAttach os).2 = .ok PtraceLockState.Release) :
    ptraceAttach os =
      ([FreebsdOp.ptAttach, FreebsdOp.waitpid], .ok PtraceLockState.Release) := by
  by_cases hA : os.attachErrno.isSome ∧ os.attachStatus = -1
  · by_cases hB : os.attachErrno = some EBUSY
    · simp [ptraceAttach, hA, hB] at h
    · simp [ptraceAttach, hA, hB] at h
  · by_cases hC : os.waitStopped
    · simp [ptraceAttach, hA, hC]
    · simp [ptraceAttach, hA, hC] at h

/-- Helper: when `ptrace_attach` returns `Ok(NoRelease)`, the attach call
failed with `EBUSY` and no wait happened. -/
theorem ptraceAttach_snd_norelease (os : FreebsdOsOutcome)
    (h : (ptraceAttach os).2 = .ok PtraceLockState.NoRelease) :
    ptraceAttach os = ([FreebsdOp.ptAttach], .ok PtraceLockState.NoRelease) := by
  by_cases hA : os.attachErrno.isSome ∧ os.attachStatus = -1
  · by_cases hB : os.attachErrno = some EBUSY
    · simp [ptraceAttach, hA, hB]
    · simp [ptraceAttach, hA, hB] at h
  · by_cases hC : os.waitStopped
    · simp [ptraceAttach, hA, hC] at h
    · simp [ptraceAttach, hA, hC] at h

/-- Helper: the full behaviour of the FreeBSD `copy_address` when the attach
returned `Ok(Release)`: attach, wait, the PT_IO read, and an unconditional
detach whose failure supersedes the read's result. -/
theorem freebsdCopyAddress_release (addr bufLen : Nat) (os : FreebsdOsOutcome)
    (h : (ptraceAttach os).2 = .ok PtraceLockState.Release) :
    freebsdCopyAddress addr bufLen os =
      ([FreebsdOp.ptAttach, FreebsdOp.waitpid, FreebsdOp.ptIoRead addr bufLen,
          FreebsdOp.ptDetach],
        if os.detachStatus = -1 then .error os.detachErrno
        else (ptraceIoRead addr bufLen os).2) := by
  have ha := ptraceAttach_snd_release os h
  by_cases hd : os.detachStatus = -1 <;> by_cases hio : os.ioStatus = -1 <;>
    simp [freebsdCopyAddress, ha, ptraceDetach, ptraceIoRead, hd, hio]

/-- Helper: the full behaviour of the FreeBSD `copy_address` when the attach
returned `Ok(NoRelease)`: the PT_IO read runs and no detach is issued. -/
theorem freebsdCopyAddress_norelease (addr bufLen : Nat) (os : FreebsdOsOutcome)
    (h : (ptraceAttach os).2 = .ok PtraceLockState.NoRelease) :
    freebsdCopyAddress addr bufLen os =
      ([FreebsdOp.ptAttach, FreebsdOp.ptIoRead addr bufLen],
        (ptraceIoRead addr bufLen os).2) := by
  have ha := ptraceAttach_snd_norelease os h
  by_cases hio : os.ioStatus = -1 <;>
    simp [freebsdCopyAddress, ha, ptraceIoRead, hio]

/-- C2: On FreeBSD, when `ptrace(PT_ATTACH, ..)` fails with `EBUSY`, the
read is not treated as failed: the PT_IO read is performed anyway and its
result returned, and no `PT_DETACH` is ever issued. -/
theorem c2_freebsd_busy_lock_reads_without_detach (addr bufLen : Nat)
    (os : FreebsdOsOutcome)
    (hs : os.attachStatus = -1) (he : os.attachErrno = some EBUSY) :
    freebsdCopyAddress addr bufLen os =
      ([FreebsdOp.ptAttach, FreebsdOp.ptIoRead addr bufLen],
        (ptraceIoRead addr bufLen os).2) ∧
    FreebsdOp.ptDetach ∉ (freebsdCopyAddress addr bufLen os).1 := by
  have hN : (ptraceAttach os).2 = .ok PtraceLockState.NoRelease := by
    simp [ptraceAttach, hs, he]
  have h1 := freebsdCopyAddress_norelease addr bufLen os hN
  refine ⟨h1, ?_⟩
  rw [h1]
  simp

/-- Witness for C2: attach fails with errno 16 (`EBUSY`), the PT_IO read
succeeds, and the overall call succeeds with no detach issued. -/
theorem c2_witness :
    freebsdCopyAddress 4096 8 ⟨-1, some 16, false, none, 0, none, 0, none⟩ =
      ([FreebsdOp.ptAttach, FreebsdOp.ptIoRead 4096 8],
        (ptraceIoRead 4096 8 ⟨-1, some 16, false, none, 0, none, 0, none⟩).2) ∧
    FreebsdOp.ptDetach ∉
      (freebsdCopyAddress 4096 8 ⟨-1, some 16, false, none, 0, none, 0, none⟩).1 :=
  c2_freebsd_busy_lock_reads_without_detach 4096 8 _ (by decide) (by decide)

/-- C5: On FreeBSD, after an attach that returned `Release` a detach is
attempted whatever the read did; a detach failure after a successful read
becomes the overall result; after an attach that returned `NoRelease` no
detach is issued. -/
theorem c5_freebsd_detach_protocol (addr bufLen : Nat) (os : FreebsdOsOutcome) :
    ((ptraceAttach os).2 = .ok PtraceLockState.Release →
        FreebsdOp.ptDetach ∈ (freebsdCopyAddress addr bufLen os).1) ∧
    ((ptraceAttach os).2 = .ok PtraceLockState.Release → os.ioStatus ≠ -1 →
        os.detachStatus = -1 →
        (freebsdCopyAddress addr bufLen os).2 = .error os.detachErrno) ∧
    ((ptraceAttach os).2 = .ok PtraceLockState.NoRelease →
        FreebsdOp.ptDetach ∉ (freebsdCopyAddress addr bufLen os).1) := by
  refine ⟨?_, ?_, ?_⟩
  · intro h
    rw [freebsdCopyAddress_release addr bufLen os h]
    simp
  · intro h _ hd
    rw [freebsdCopyAddress_release addr bufLen os h]
    simp [hd]
  · intro h
    rw [freebsdCopyAddress_norelease addr bufLen os h]
    simp

/-- Witness for C5 at concrete inputs: with a clean attach and a failing
detach (errno 7) the detach is in the trace and its error is the result
even though the read succeeded; with an `EBUSY` attach no detach occurs. -/
theorem c5_witness :
    FreebsdOp.ptDetach ∈
      (freebsdCopyAddress 0 4 ⟨0, none, true, none, 0, none, -1, some 7⟩).1 ∧
    (freebsdCopyAddress 0 4 ⟨0, none, true, none, 0, none, -1, some 7⟩).2 =
      .error (some 7) ∧
    FreebsdOp.ptDetach ∉
      (freebsdCopyAddress 0 4 ⟨-1, some 16, false, none, 0, none, 0, none⟩).1 :=
  ⟨(c5_freebsd_detach_protocol 0 4 ⟨0, none, true, none, 0, none, -1, some 7⟩).1
      (by decide),
   (c5_freebsd_detach_protocol 0 4 ⟨0, none, true, none, 0, none, -1, some 7⟩).2.1
      (by decide) (by decide) (by decide),
   (c5_freebsd_detach_protocol 0 4 ⟨-1, some 16, false, none, 0, none, 0, none⟩).2.2
      (by decide)⟩

/-- C7: On FreeBSD, when the `PT_ATTACH` call succeeds (status not `-1`) but
the wait does not report the target stopped, the OS error observed after the
wait is returned and the trace holds only the attach and the wait: the PT_IO
read is not attempted and no `PT_DETACH` is issued. -/
theorem c7_freebsd_wait_failure_no_read_no_detach (addr bufLen : Nat)
    (os : FreebsdOsOutcome)
    (hs : os.attachStatus ≠ -1) (hw : os.waitStopped = false) :
    freebsdCopyAddress addr bufLen os =
      ([FreebsdOp.ptAttach, FreebsdOp.waitpid], .error os.waitErrno) := by
  have ha : ptraceAttach os =
      ([FreebsdOp.ptAttach, FreebsdOp.waitpid], .error os.waitErrno) := by
    simp [ptraceAttach, hs, hw]
  simp [freebsdCopyAddress, ha]

/-- Witness for C7: attach status 0, wait never reports stopped, errno 10
observed after the wait; the result is that error with no PT_IO and no
detach in the trace. -/
theorem c7_witness :
    freebsdCopyAddress 64 4 ⟨0, none, false, some 10, 0, none, 0, none⟩ =
      ([FreebsdOp.ptAttach, FreebsdOp.waitpid], .error (some 10)) :=
  c7_freebsd_wait_failure_no_read_no_detach 64 4 _ (by decide) (by decide)

/-- C10: On FreeBSD, when the attach returned `Release` and both the PT_IO
read and the PT_DETACH fail, the returned error is the detach error; when
the two errnos differ the read error is in particular not returned. -/
theorem c10_freebsd_detach_error_supersedes_read_error (addr bufLen : Nat)
    (os : FreebsdOsOutcome)
    (ha : (ptraceAttach os).2 = .ok PtraceLockState.Release)
    (hio : os.ioStatus = -1) (hd : os.detachStatus = -1) :
    (freebsdCopyAddress addr bufLen os).2 = .error os.detachErrno ∧
    (os.detachErrno ≠ os.ioErrno →
      (freebsdCopyAddress addr bufLen os).2 ≠ .error os.ioErrno) := by
  have h1 := freebsdCopyAddress_release addr bufLen os ha
  constructor
  · rw [h1]
    simp [hd]
  · intro hne
    rw [h1]
    simp [hd, hne]

/-- Witness for C10: clean attach, read fails with errno 5, detach fails
with errno 7; the result is the detach error 7, not the read error 5. -/
theorem c10_witness :
    (freebsdCopyAddress 0 4 ⟨0, none, true, none, -1, some 5, -1, some 7⟩).2 =
      .error (some 7) ∧
    (freebsdCopyAddress 0 4 ⟨0, none, true, none, -1, some 5, -1, some 7⟩).2 ≠
      .error (some 5) :=
  ⟨(c10_freebsd_detach_error_supersedes_read_error 0 4 _ (by decide) (by decide)
      (by decide)).1,
   (c10_freebsd_detach_error_supersedes_read_error 0 4 _ (by decide) (by decide)
      (by decide)).2 (by decide)⟩

/-- Helper: the fallback trace always begins by opening `/proc/<pid>/mem`. -/
theorem linuxFallback_mem_open (pid : Int) (addr bufLen : Nat)
    (os : LinuxOsOutcome) :
    LinuxOp.openProcMem pid ∈ (linuxFallback pid addr bufLen os).1 := by
  unfold linuxFallback
  cases ho : os.openOutcome with
  | error e => simp
  | ok u => cases hs : os.seekOutcome with
    | error e => simp
    | ok u => simp

/-- C3: On Linux, `copy_address` issues exactly one `process_vm_readv` with
one local and one remote iovec of the full buffer length as its first OS
operation; the `/proc/<pid>/mem` fallback is taken exactly when that call
returned `-1` with errno `ENOSYS` or `EPERM`; any other `process_vm_readv`
failure is returned at once with no fallback operation; and a taken fallback
whose open and seek succeed seeks to `addr` and hands `read_exact` the full
buffer length, its result becoming the overall result. -/
theorem c3_linux_fallback_policy (pid : Int) (addr bufLen : Nat)
    (os : LinuxOsOutcome) :
    ((linuxCopyAddress pid addr bufLen os).1.head? =
        some (.processVmReadv bufLen 1 bufLen 1)) ∧
    (LinuxOp.openProcMem pid ∈ (linuxCopyAddress pid addr bufLen os).1 ↔
        os.vmResult = -1 ∧
          (os.vmErrno = some ENOSYS ∨ os.vmErrno = some EPERM)) ∧
    (os.vmResult = -1 →
        ¬(os.vmErrno = some ENOSYS ∨ os.vmErrno = some EPERM) →
        linuxCopyAddress pid addr bufLen os =
          ([.processVmReadv bufLen 1 bufLen 1], .error os.vmErrno)) ∧
    (os.vmResult = -1 →
        (os.vmErrno = some ENOSYS ∨ os.vmErrno = some EPERM) →
        os.openOutcome = .ok () → os.seekOutcome = .ok () →
        linuxCopyAddress pid addr bufLen os =
          ([.processVmReadv bufLen 1 bufLen 1, .openProcMem pid,
              .seekStart addr, .readExact bufLen], os.readExactOutcome)) := by
  refine ⟨?_, ?_, ?_, ?_⟩
  · by_cases hr : os.vmResult = -1
    · by_cases hf : os.vmErrno = some ENOSYS ∨ os.vmErrno = some EPERM <;>
        simp [linuxCopyAddress, hr, hf]
    · simp [linuxCopyAddress, hr]
  · by_cases hr : os.vmResult = -1
    · by_cases hf : os.vmErrno = some ENOSYS ∨ os.vmErrno = some EPERM
      · have hm := linuxFallback_mem_open pid addr bufLen os
        simp [linuxCopyAddress, hr, hf, hm]
      · simp [linuxCopyAddress, hr, hf]
    · simp [linuxCopyAddress, hr]
  · intro hr hf
    simp [linuxCopyAddress, hr, hf]
  · intro hr hf hopen hseek
    simp [linuxCopyAddress, linuxFallback, hr, hf, hopen, hseek]

/-- Witness for C3 at concrete inputs: errno 14 (`EFAULT`) is returned at
once with no fallback, while errno 38 (`ENOSYS`) with a working pseudo-file
path runs open, seek, `read_exact` and returns the `read_exact` result. -/
theorem c3_witness :
    linuxCopyAddress 42 256 8 ⟨-1, some 14, .ok (), .ok (), .ok ()⟩ =
      ([.processVmReadv 8 1 8 1], .error (some 14)) ∧
    linuxCopyAddress 42 256 8 ⟨-1, some 38, .ok (), .ok (), .ok ()⟩ =
      ([.processVmReadv 8 1 8 1, .openProcMem 42, .seekStart 256,
          .readExact 8], .ok ()) :=
  ⟨(c3_linux_fallback_policy 42 256 8 ⟨-1, some 14, .ok (), .ok (), .ok ()⟩).2.2.1
      (by decide) (by decide),
   (c3_linux_fallback_policy 42 256 8 ⟨-1, some 38, .ok (), .ok (), .ok ()⟩).2.2.2
      (by decide) (by decide) (by decide) (by decide)⟩

/-- Helper: the trace of `ptrace_attach` always holds the attach call. -/
theorem ptraceAttach_mem (os : FreebsdOsOutcome) :
    FreebsdOp.ptAttach ∈ (ptraceAttach os).1 := by
  unfold ptraceAttach
  split
  · split <;> simp
  · split <;> simp

/-- Helper: every FreeBSD `copy_address` run, zero-length or not, issues the
`ptrace(PT_ATTACH, ..)` call. -/
theorem freebsdCopyAddress_attach_called (addr bufLen : Nat)
    (os : FreebsdOsOutcome) :
    FreebsdOp.ptAttach ∈ (freebsdCopyAddress addr bufLen os).1 := by
  have hm := ptraceAttach_mem os
  unfold freebsdCopyAddress
  rcases hA : ptraceAttach os with ⟨aops, r⟩
  rw [hA] at hm
  have hm' : FreebsdOp.ptAttach ∈ aops := hm
  rcases r with e | s
  · simpa using hm'
  · by_cases hs : s = PtraceLockState.Release
    · rcases hd : ptraceDetach os with ⟨dops, rd⟩
      rcases rd with e | u <;> simp [hs, hd, hm']
    · simp [hs, hm']

/-- C4 counterexample: a zero-length read is not a no-op success on every
platform.  On FreeBSD with a zero-length buffer, `copy_address` still issues
`ptrace(PT_ATTACH, ..)`; when that attach fails with errno 3 (`ESRCH`) the
call returns that OS error rather than succeeding. -/
theorem c4_counterexample :
    (freebsdCopyAddress 0 0 c4AttachFails).2 = .error (some 3) ∧
    (freebsdCopyAddress 0 0 c4AttachFails).1 = [FreebsdOp.ptAttach] := by
  decide

/-- C4 (amended): only Windows short-circuits a zero-length request to
immediate success with no OS call; on FreeBSD `ptrace(PT_ATTACH, ..)` is
still issued for a zero-length buffer (and, per the counterexample above,
its failure is surfaced), and on Linux `process_vm_readv` is still called as
the first operation, with zero-length iovecs. -/
theorem c4_zero_length_policy (addr : Nat) (pid : Int)
    (wos : WindowsOsOutcome) (fos : FreebsdOsOutcome) (los : LinuxOsOutcome) :
    windowsCopyAddress addr 0 wos = ([], .ok ()) ∧
    FreebsdOp.ptAttach ∈ (freebsdCopyAddress addr 0 fos).1 ∧
    (linuxCopyAddress pid addr 0 los).1.head? =
      some (.processVmReadv 0 1 0 1) := by
  refine ⟨by simp [windowsCopyAddress],
    freebsdCopyAddress_attach_called addr 0 fos, ?_⟩
  by_cases hr : los.vmResult = -1
  · by_cases hf : los.vmErrno = some ENOSYS ∨ los.vmErrno = some EPERM <;>
      simp [linuxCopyAddress, hr, hf]
  · simp [linuxCopyAddress, hr]

/-- Helper: `handleClosedOnceAtEnd` is preserved along any well-formed
sequence of clone/drop events. -/
theorem handleClosedOnceAtEnd_run (ops : List HandleOp) :
    ∀ s : WindowsHandleState, handleClosedOnceAtEnd s →
      handleOpsValid s ops = true →
      handleClosedOnceAtEnd (handleRun s ops) := by
  induction ops with
  | nil =>
    intro s hs _
    simpa [handleRun] using hs
  | cons op rest ih =>
    intro s hs hv
    simp only [handleOpsValid, Bool.and_eq_true, decide_eq_true_eq] at hv
    obtain ⟨hpos, hvrest⟩ := hv
    have hc : s.closeHandleCalls = 0 := hs.2 hpos
    have hstep : handleClosedOnceAtEnd (handleStep s op) := by
      cases op with
      | cloneHandle =>
        refine ⟨fun h => ?_, fun _ => ?_⟩
        · simp [handleStep] at h
        · simpa [handleStep] using hc
      | dropHandle =>
        by_cases h1 : s.strongCount = 1
        · refine ⟨fun _ => ?_, fun h => ?_⟩
          · simp [handleStep, h1, hc]
          · simp [handleStep, h1] at h
        · refine ⟨fun h => ?_, fun _ => ?_⟩
          · exfalso
            simp [handleStep, h1] at h
            omega
          · simpa [handleStep, h1] using hc
    have hrw : handleRun s (op :: rest) = handleRun (handleStep s op) rest := by
      simp [handleRun]
    rw [hrw]
    exact ih (handleStep s op) hstep hvrest

/-- C6: On Windows, every constructor yields a wrapper with one live
reference and no `CloseHandle` call made, and along every well-formed
sequence of clones and drops the underlying kernel object is closed exactly
once - at the moment the last reference is dropped - and never while a
reference is still alive. -/
theorem c6_windows_close_exactly_once (ops : List HandleOp)
    (hv : handleOpsValid initialHandleState ops = true) :
    windowsTryFromChild = initialHandleState ∧
    windowsFromRawHandle = initialHandleState ∧
    windowsTryFromPid 1 none = .ok initialHandleState ∧
    ((handleRun initialHandleState ops).strongCount = 0 →
      (handleRun initialHandleState ops).closeHandleCalls = 1) ∧
    (0 < (handleRun initialHandleState ops).strongCount →
      (handleRun initialHandleState ops).closeHandleCalls = 0) := by
  have hinit : handleClosedOnceAtEnd initialHandleState :=
    ⟨fun h => by simp [initialHandleState] at h, fun _ => rfl⟩
  have h := handleClosedOnceAtEnd_run ops initialHandleState hinit hv
  exact ⟨rfl, rfl, rfl, h.1, h.2⟩

/-- Witness for C6: clone the handle once, drop both references; the run is
well-formed, ends with no live reference, and `CloseHandle` was called
exactly once. -/
theorem c6_witness :
    (handleRun initialHandleState
        [HandleOp.cloneHandle, HandleOp.dropHandle, HandleOp.dropHandle]).strongCount
      = 0 ∧
    (handleRun initialHandleState
        [HandleOp.cloneHandle, HandleOp.dropHandle, HandleOp.dropHandle]).closeHandleCalls
      = 1 :=
  ⟨by decide,
   (c6_windows_close_exactly_once
      [HandleOp.cloneHandle, HandleOp.dropHandle, HandleOp.dropHandle]
      (by decide)).2.2.2.1 (by decide)⟩

end ReadProcessMemory
